import Mathlib

/-!
Verification of the technical signal engine of `backend/stock_analyzer_backend.py`:
the Volatility Stop (VStop) state machine (`calculate_vstop`), the relative-strength
calculation (`calculate_relative_strength`), the chart-pattern heuristic
(`get_chart_pattern`), and the rule-based recommendation logic inside
`get_stock_analysis`.

Modelling conventions:
* Prices are exact rationals.  Values that Python/pandas represent as possibly-NaN
  floats (the stop series, window maxima of possibly-empty selections, ATR entries)
  are modelled by `RVal := Option ℚ`, with `none` playing the role of IEEE NaN:
  every comparison against `none` is `false` and arithmetic with `none` yields
  `none`, exactly as NaN behaves in CPython and pandas.
* The Average True Range is an external library computation
  (`df.ta.atr(length=atr_period, append=True)` from pandas_ta); per the spec it is
  "a precomputed ATR aligned one-to-one with the series" supplied by the standard
  indicator library.  The embedding therefore takes the ATR series as an input
  (an arbitrary aligned `ℕ → RVal`, resp. an `atrFn` oracle at the DataFrame level).
* pandas positional slicing `s.iloc[a:b]` follows Python slice semantics: a
  negative start is interpreted relative to the end of the series and clamped
  at 0.  `pySliceStart` reproduces this.
* Python's builtin `max`/`min` of two floats keep the first argument when the
  comparison with NaN fails; `pyMax`/`pyMin` reproduce this.
-/

/-- A pandas float value: `some q` is an ordinary number, `none` models IEEE NaN. -/
abbrev RVal := Option ℚ

/-- Addition with NaN propagation. -/
def rvAdd : RVal → RVal → RVal
  | some a, some b => some (a + b)
  | _, _ => none

/-- Subtraction with NaN propagation. -/
def rvSub : RVal → RVal → RVal
  | some a, some b => some (a - b)
  | _, _ => none

/-- Multiplication with NaN propagation. -/
def rvMul : RVal → RVal → RVal
  | some a, some b => some (a * b)
  | _, _ => none

/-- Strict `<` on float values; any comparison involving NaN is `false`. -/
def rvLt : RVal → RVal → Bool
  | some a, some b => decide (a < b)
  | _, _ => false

/-- Non-strict `≤` on float values; any comparison involving NaN is `false`. -/
def rvLe : RVal → RVal → Bool
  | some a, some b => decide (a ≤ b)
  | _, _ => false

/-- Python `max(a, b)`: returns `b` exactly when `a < b` holds, otherwise `a`
(so `max(NaN, x) = NaN`), as CPython's builtin behaves on floats. -/
def pyMax (a b : RVal) : RVal := if rvLt a b then b else a

/-- Python `min(a, b)`: returns `b` exactly when `b < a` holds, otherwise `a`
(so `min(NaN, x) = NaN`), as CPython's builtin behaves on floats. -/
def pyMin (a b : RVal) : RVal := if rvLt b a then b else a

/-- `pandas.Series.max()` over a selection of real entries: NaN on an empty
selection, otherwise the maximum. -/
def seriesMax : List ℚ → RVal
  | [] => none
  | x :: r => some (r.foldl max x)

/-- `pandas.Series.min()` over a selection of real entries: NaN on an empty
selection, otherwise the minimum. -/
def seriesMin : List ℚ → RVal
  | [] => none
  | x :: r => some (r.foldl min x)

/-- Effective start index of the Python slice `iloc[i - lookback : i + 1]` over a
series of length `n`: a non-negative start is used as is, a negative start is
taken relative to the end of the series and clamped at 0 (Python slice
normalisation). -/
def pySliceStart (lb n i : ℕ) : ℕ :=
  if lb ≤ i then i - lb else n + i - lb

/-- The close-price window `df['Close'].iloc[i - lookback_period : i + 1]` used by
`calculate_vstop` at bar `i` (source lines 47-48). -/
def vwindow (cl : ℕ → ℚ) (lb n i : ℕ) : List ℚ :=
  (List.range' (pySliceStart lb n i) (i + 1 - pySliceStart lb n i)).map cl

/-- Loop state of `calculate_vstop`: the stop values assigned so far plus the
`fHigh` / `fLow` run counters (source lines 37-41). -/
structure VSt where
  stops : List RVal
  fHigh : ℕ
  fLow : ℕ
  deriving DecidableEq

/-- One iteration of the `for i in range(len(df))` loop of `calculate_vstop`
(source lines 43-63), as a state transformer.  `hi`/`cl` are the High/Close
columns, `atr` the (external) ATR series, `ap`/`lb`/`m` the parameters. -/
def vstep (hi cl : ℕ → ℚ) (atr : ℕ → RVal) (ap lb n : ℕ) (m : ℚ) (s : VSt) (i : ℕ) : VSt :=
  if i < ap then
    ⟨s.stops ++ [rvAdd (some (cl i)) (rvMul (some m) (atr i))], s.fHigh, s.fLow⟩
  else
    let high_period := seriesMax (vwindow cl lb n i)
    let low_period := seriesMin (vwindow cl lb n i)
    let prev := s.stops.getD (i - 1) none
    if rvLt prev (some (hi (i - 1))) then
      let v := if s.fHigh < 1 then rvSub high_period (rvMul (some m) (atr i))
               else pyMax prev (rvSub high_period (rvMul (some m) (atr i)))
      ⟨s.stops ++ [v], s.fHigh + 1, 0⟩
    else
      let v := if s.fLow < 1 then rvAdd low_period (rvMul (some m) (atr i))
               else pyMin prev (rvAdd low_period (rvMul (some m) (atr i)))
      ⟨s.stops ++ [v], 0, s.fLow + 1⟩

/-- Initial loop state of `calculate_vstop`: empty stop series, `fHigh = fLow = 0`. -/
def vstopInit : VSt := ⟨[], 0, 0⟩

/-- The full per-bar stop series computed by the loop of `calculate_vstop` over a
series of `n` bars. -/
def vstopSeries (hi cl : ℕ → ℚ) (atr : ℕ → RVal) (ap lb n : ℕ) (m : ℚ) : List RVal :=
  ((List.range n).foldl (vstep hi cl atr ap lb n m) vstopInit).stops

/-- Classification of a processed bar: warm-up bar, steady-state bar that took the
long ("high-tracking") branch, or steady-state bar that took the short branch. -/
inductive BarKind
  | warm
  | long
  | short
  deriving DecidableEq

/-- Closed-form recursion for the stop value and branch classification at each
bar.  Equivalent to the fold `vstopSeries` for validated parameters
(`atr_period ≥ 1`); the equivalence is proved in `vstop_fold_spec`.  The
run-counter tests `fHigh < 1` / `fLow < 1` of the source become the test whether
the previous bar took the same branch. -/
def vstopRec (hi cl : ℕ → ℚ) (atr : ℕ → RVal) (ap lb n : ℕ) (m : ℚ) : ℕ → RVal × BarKind
  | 0 => (rvAdd (some (cl 0)) (rvMul (some m) (atr 0)), BarKind.warm)
  | j + 1 =>
    let p := vstopRec hi cl atr ap lb n m j
    if j + 1 < ap then
      (rvAdd (some (cl (j + 1))) (rvMul (some m) (atr (j + 1))), BarKind.warm)
    else
      let high_period := seriesMax (vwindow cl lb n (j + 1))
      let low_period := seriesMin (vwindow cl lb n (j + 1))
      if rvLt p.1 (some (hi j)) then
        (if p.2 = BarKind.long then
            pyMax p.1 (rvSub high_period (rvMul (some m) (atr (j + 1))))
         else rvSub high_period (rvMul (some m) (atr (j + 1))), BarKind.long)
      else
        (if p.2 = BarKind.short then
            pyMin p.1 (rvAdd low_period (rvMul (some m) (atr (j + 1))))
         else rvAdd low_period (rvMul (some m) (atr (j + 1))), BarKind.short)

/-- Entry `i` of the stop series produced by `calculate_vstop` (NaN when out of
range, as a fresh `pd.Series(index=df.index)` is NaN-filled). -/
def vstopGet (hi cl : ℕ → ℚ) (atr : ℕ → RVal) (ap lb n : ℕ) (m : ℚ) (i : ℕ) : RVal :=
  (vstopSeries hi cl atr ap lb n m).getD i none

/-- The "long run" condition consulted by `calculate_vstop` at bar `i`
(source line 50): the previous bar's high lies above the previous stop. -/
def longRunCond (hi cl : ℕ → ℚ) (atr : ℕ → RVal) (ap lb n : ℕ) (m : ℚ) (i : ℕ) : Prop :=
  rvLt (vstopGet hi cl atr ap lb n m (i - 1)) (some (hi (i - 1))) = true

/-- The "short run" condition at bar `i`: the negation of the line-50 test, i.e.
the previous bar's high does not exceed the previous stop (which is also the
case when the previous stop is NaN). -/
def shortRunCond (hi cl : ℕ → ℚ) (atr : ℕ → RVal) (ap lb n : ℕ) (m : ℚ) (i : ℕ) : Prop :=
  rvLt (vstopGet hi cl atr ap lb n m (i - 1)) (some (hi (i - 1))) = false

/-- Python exception kinds raised by the analysed code paths. `valueError`
corresponds to `raise ValueError(...)` — the spec taxonomy's `ValidationError`;
`indexError` to the `IndexError` escaping from a positional access such as
`.iloc[0]` / `.iloc[-1]` on an empty series. -/
inductive PyErr
  | valueError
  | indexError
  deriving DecidableEq

/-- The price DataFrame: High/Low/Close columns plus the indicator columns that
library calls append to it (each appended column is a name together with a
possibly-NaN value series). -/
structure DataFrame where
  high : List ℚ
  low : List ℚ
  close : List ℚ
  extra : List (String × List RVal)
  deriving DecidableEq

/-- Read a real-valued column positionally (total, used only in range). -/
def colFun (xs : List ℚ) : ℕ → ℚ := fun i => xs.getD i 0

/-- Read a possibly-NaN column positionally. -/
def colFunR (xs : List RVal) : ℕ → RVal := fun i => xs.getD i none

/-- `calculate_vstop` (source lines 21-67).  The `isinstance` and column checks
of lines 27-34 are rendered vacuous by the typed `DataFrame`; the parameter
check of lines 30-31 raises `ValueError`.  `atrFn` is the external pandas_ta
ATR computation whose result is appended to the frame (line 36).  The function
returns the updated frame together with `df['VStop'].iloc[-1]` (line 67), an
`IndexError` escaping when the frame is empty. -/
def calculate_vstop (atrFn : List ℚ → List ℚ → List ℚ → List RVal) (df : DataFrame)
    (atr_period lookback_period : ℤ) (multiplier : ℚ) : Except PyErr (DataFrame × RVal) :=
  if atr_period ≤ 0 ∨ lookback_period ≤ 0 ∨ multiplier ≤ 0 then
    .error .valueError
  else
    let atr := atrFn df.high df.low df.close
    let n := df.close.length
    let stops := vstopSeries (colFun df.high) (colFun df.close) (colFunR atr)
        atr_period.toNat lookback_period.toNat n multiplier
    let df2 : DataFrame :=
      { df with extra := df.extra ++ [("ATRr_" ++ toString atr_period.toNat, atr), ("VStop", stops)] }
    if n = 0 then .error .indexError else .ok (df2, stops.getD (n - 1) none)

/-- The normalised-ratio series of `calculate_relative_strength` (source lines
74-79): each series is divided by its first close, then the two are divided
positionally. -/
def rsSeries (stock_close index_close : List ℚ) : List ℚ :=
  let stock_normalized := stock_close.map (fun c => c / stock_close.getD 0 0)
  let index_normalized := index_close.map (fun c => c / index_close.getD 0 0)
  List.zipWith (fun a b => a / b) stock_normalized index_normalized

/-- `calculate_relative_strength` (source lines 70-80): `.iloc[0]` on an empty
series escapes with `IndexError`; otherwise the last entry of the ratio series
is returned. -/
def calculate_relative_strength (stock_close index_close : List ℚ) : Except PyErr ℚ :=
  if stock_close.length = 0 ∨ index_close.length = 0 then .error .indexError
  else
    let rs := rsSeries stock_close index_close
    .ok (rs.getD (rs.length - 1) 0)

/-- `get_chart_pattern` (source lines 82-96): compares the last close with the
maximum of `df['High'][-252:]` (NaN when the High column is empty). -/
def get_chart_pattern (df : DataFrame) : Except PyErr String :=
  if df.close.length = 0 then .error .indexError
  else
    let last_price := df.close.getD (df.close.length - 1) 0
    let high_52_week := seriesMax (df.high.drop (df.high.length - 252))
    if rvLe high_52_week (some last_price) then .ok "New 52-Week High Breakout"
    else .ok "No clear pattern"

/-- The buy condition of `get_stock_analysis` (source lines 182-193). -/
def is_buy_signal (close ema50 sma50 ema200 sma200 rsi adx vstop psar : ℚ) : Bool :=
  decide (close > ema50 ∧ close > sma50 ∧ close > ema200 ∧ close > sma200 ∧
    rsi > 55 ∧ adx > 25 ∧ close > vstop ∧ close > psar)

/-- The sell condition of `get_stock_analysis` (source lines 195-200). -/
def is_sell_signal (close ema50 vstop psar rsi : ℚ) : Bool :=
  decide (close < ema50 ∧ close < vstop ∧ close < psar ∧ rsi < 45)

/-- The recommendation of `get_stock_analysis` (source lines 202-210): buy rule
first, then sell rule, default Hold. -/
def get_recommendation (close ema50 sma50 ema200 sma200 rsi adx vstop psar : ℚ) : String :=
  if is_buy_signal close ema50 sma50 ema200 sma200 rsi adx vstop psar then "Buy"
  else if is_sell_signal close ema50 vstop psar rsi then "Sell"
  else "Hold"

/-- Whether an `Except` result is a successful return. -/
def isOkE {α : Type} : Except PyErr α → Bool
  | .ok _ => true
  | .error _ => false

/-! ### Bridge between the loop fold and the closed-form recursion -/

lemma getD_map_range {α : Type} (f : ℕ → α) (d : α) {j i : ℕ} (h : j < i) :
    ((List.range i).map f).getD j d = f j := by
  rw [List.getD_eq_getElem _ _ (by simpa using h)]
  simp

lemma vstopRec_warm (hi cl : ℕ → ℚ) (atr : ℕ → RVal) (ap lb n : ℕ) (m : ℚ) {i : ℕ}
    (h : i < ap) :
    vstopRec hi cl atr ap lb n m i
      = (rvAdd (some (cl i)) (rvMul (some m) (atr i)), BarKind.warm) := by
  cases i with
  | zero => simp [vstopRec]
  | succ j => simp [vstopRec, h]

lemma vstopRec_steady_long (hi cl : ℕ → ℚ) (atr : ℕ → RVal) (ap lb n : ℕ) (m : ℚ) {j : ℕ}
    (hj : ¬ j + 1 < ap)
    (hc : rvLt (vstopRec hi cl atr ap lb n m j).1 (some (hi j)) = true) :
    vstopRec hi cl atr ap lb n m (j + 1)
      = (if (vstopRec hi cl atr ap lb n m j).2 = BarKind.long then
           pyMax (vstopRec hi cl atr ap lb n m j).1
             (rvSub (seriesMax (vwindow cl lb n (j + 1))) (rvMul (some m) (atr (j + 1))))
         else rvSub (seriesMax (vwindow cl lb n (j + 1))) (rvMul (some m) (atr (j + 1))),
         BarKind.long) := by
  rw [vstopRec]
  simp only [hj, if_false, hc, if_true]

lemma vstopRec_steady_short (hi cl : ℕ → ℚ) (atr : ℕ → RVal) (ap lb n : ℕ) (m : ℚ) {j : ℕ}
    (hj : ¬ j + 1 < ap)
    (hc : rvLt (vstopRec hi cl atr ap lb n m j).1 (some (hi j)) = false) :
    vstopRec hi cl atr ap lb n m (j + 1)
      = (if (vstopRec hi cl atr ap lb n m j).2 = BarKind.short then
           pyMin (vstopRec hi cl atr ap lb n m j).1
             (rvAdd (seriesMin (vwindow cl lb n (j + 1))) (rvMul (some m) (atr (j + 1))))
         else rvAdd (seriesMin (vwindow cl lb n (j + 1))) (rvMul (some m) (atr (j + 1))),
         BarKind.short) := by
  rw [vstopRec]
  simp only [hj, if_false, hc, Bool.false_eq_true, if_true]


lemma vstep_warm (hi cl : ℕ → ℚ) (atr : ℕ → RVal) (ap lb n : ℕ) (m : ℚ) (s : VSt) {i : ℕ}
    (h : i < ap) :
    vstep hi cl atr ap lb n m s i
      = ⟨s.stops ++ [rvAdd (some (cl i)) (rvMul (some m) (atr i))], s.fHigh, s.fLow⟩ := by
  simp [vstep, h]

lemma vstep_long (hi cl : ℕ → ℚ) (atr : ℕ → RVal) (ap lb n : ℕ) (m : ℚ) (s : VSt) {i : ℕ}
    (h : ¬ i < ap)
    (hc : rvLt (s.stops.getD (i - 1) none) (some (hi (i - 1))) = true) :
    vstep hi cl atr ap lb n m s i
      = ⟨s.stops ++ [if s.fHigh < 1 then
            rvSub (seriesMax (vwindow cl lb n i)) (rvMul (some m) (atr i))
          else pyMax (s.stops.getD (i - 1) none)
            (rvSub (seriesMax (vwindow cl lb n i)) (rvMul (some m) (atr i)))],
         s.fHigh + 1, 0⟩ := by
  have hc2 : rvLt (s.stops[i - 1]?.getD none) (some (hi (i - 1))) = true := by
    rw [← List.getD_eq_getElem?_getD]; exact hc
  simp [vstep, h, hc2]

lemma vstep_short (hi cl : ℕ → ℚ) (atr : ℕ → RVal) (ap lb n : ℕ) (m : ℚ) (s : VSt) {i : ℕ}
    (h : ¬ i < ap)
    (hc : rvLt (s.stops.getD (i - 1) none) (some (hi (i - 1))) = false) :
    vstep hi cl atr ap lb n m s i
      = ⟨s.stops ++ [if s.fLow < 1 then
            rvAdd (seriesMin (vwindow cl lb n i)) (rvMul (some m) (atr i))
          else pyMin (s.stops.getD (i - 1) none)
            (rvAdd (seriesMin (vwindow cl lb n i)) (rvMul (some m) (atr i)))],
         0, s.fLow + 1⟩ := by
  have hc2 : rvLt (s.stops[i - 1]?.getD none) (some (hi (i - 1))) = false := by
    rw [← List.getD_eq_getElem?_getD]; exact hc
  simp [vstep, h, hc2]

lemma vstop_fold_spec (hi cl : ℕ → ℚ) (atr : ℕ → RVal) (ap lb n : ℕ) (m : ℚ)
    (hap : 1 ≤ ap) (i : ℕ) :
    ((List.range i).foldl (vstep hi cl atr ap lb n m) vstopInit).stops
        = (List.range i).map (fun j => (vstopRec hi cl atr ap lb n m j).1)
    ∧ (0 < ((List.range i).foldl (vstep hi cl atr ap lb n m) vstopInit).fHigh ↔
        (1 ≤ i ∧ (vstopRec hi cl atr ap lb n m (i - 1)).2 = BarKind.long))
    ∧ (0 < ((List.range i).foldl (vstep hi cl atr ap lb n m) vstopInit).fLow ↔
        (1 ≤ i ∧ (vstopRec hi cl atr ap lb n m (i - 1)).2 = BarKind.short)) := by
  induction i with
  | zero => simp [vstopInit]
  | succ i ih =>
    have hfold : (List.range (i + 1)).foldl (vstep hi cl atr ap lb n m) vstopInit
        = vstep hi cl atr ap lb n m
            ((List.range i).foldl (vstep hi cl atr ap lb n m) vstopInit) i := by
      rw [List.range_succ, List.foldl_append, List.foldl_cons, List.foldl_nil]
    set s := (List.range i).foldl (vstep hi cl atr ap lb n m) vstopInit with hs
    obtain ⟨h1, h2, h3⟩ := ih
    rw [hfold]
    by_cases hw : i < ap
    · -- warm-up bar: flags untouched, warm-up value appended
      have hkI := vstopRec_warm hi cl atr ap lb n m hw
      have hkPrev : (vstopRec hi cl atr ap lb n m (i - 1)).2 = BarKind.warm := by
        rw [vstopRec_warm hi cl atr ap lb n m (show i - 1 < ap by omega)]
      rw [vstep_warm hi cl atr ap lb n m s hw]
      refine ⟨?_, ?_, ?_⟩
      · show s.stops ++ _ = _
        rw [List.range_succ, List.map_append, h1]
        simp [hkI]
      · show 0 < s.fHigh ↔ _
        rw [h2]
        simp [hkPrev, hkI]
      · show 0 < s.fLow ↔ _
        rw [h3]
        simp [hkPrev, hkI]
    · -- steady-state bar
      have hge : ap ≤ i := Nat.le_of_not_lt hw
      have hi1 : 1 ≤ i := le_trans hap hge
      obtain ⟨j, rfl⟩ : ∃ j, i = j + 1 := ⟨i - 1, by omega⟩
      have hprev : s.stops.getD (j + 1 - 1) none = (vstopRec hi cl atr ap lb n m j).1 := by
        rw [h1, Nat.add_sub_cancel]
        exact getD_map_range _ none (Nat.lt_succ_self j)
      have h2' : 0 < s.fHigh ↔ (vstopRec hi cl atr ap lb n m j).2 = BarKind.long := by
        rw [h2]; simp
      have h3' : 0 < s.fLow ↔ (vstopRec hi cl atr ap lb n m j).2 = BarKind.short := by
        rw [h3]; simp
      by_cases hc : rvLt (vstopRec hi cl atr ap lb n m j).1 (some (hi j)) = true
      · -- long branch at bar j+1
        have hcS : rvLt (s.stops.getD (j + 1 - 1) none) (some (hi (j + 1 - 1))) = true := by
          rw [hprev, Nat.add_sub_cancel]; exact hc
        have hrec := vstopRec_steady_long hi cl atr ap lb n m hw hc
        rw [vstep_long hi cl atr ap lb n m s hw hcS]
        have hveq : (if s.fHigh < 1 then
              rvSub (seriesMax (vwindow cl lb n (j + 1))) (rvMul (some m) (atr (j + 1)))
            else pyMax (s.stops.getD (j + 1 - 1) none)
              (rvSub (seriesMax (vwindow cl lb n (j + 1))) (rvMul (some m) (atr (j + 1)))))
            = (vstopRec hi cl atr ap lb n m (j + 1)).1 := by
          rw [hrec, hprev]
          by_cases hk : (vstopRec hi cl atr ap lb n m j).2 = BarKind.long
          · have hn1 : ¬ s.fHigh < 1 := by have := h2'.mpr hk; omega
            simp [hn1, hk]
          · have hn1 : s.fHigh < 1 := by
              by_contra hcon
              exact hk (h2'.mp (by omega))
            simp [hn1, hk]
        refine ⟨?_, ?_, ?_⟩
        · show s.stops ++ _ = _
          rw [hveq, List.range_succ, List.map_append, h1]
          simp
        · show 0 < s.fHigh + 1 ↔ _
          simp [hrec]
        · show (0:ℕ) < 0 ↔ _
          simp [hrec]
      · -- short branch at bar j+1
        have hc' : rvLt (vstopRec hi cl atr ap lb n m j).1 (some (hi j)) = false := by
          simpa using hc
        have hcS : rvLt (s.stops.getD (j + 1 - 1) none) (some (hi (j + 1 - 1))) = false := by
          rw [hprev, Nat.add_sub_cancel]; exact hc'
        have hrec := vstopRec_steady_short hi cl atr ap lb n m hw hc'
        rw [vstep_short hi cl atr ap lb n m s hw hcS]
        have hveq : (if s.fLow < 1 then
              rvAdd (seriesMin (vwindow cl lb n (j + 1))) (rvMul (some m) (atr (j + 1)))
            else pyMin (s.stops.getD (j + 1 - 1) none)
              (rvAdd (seriesMin (vwindow cl lb n (j + 1))) (rvMul (some m) (atr (j + 1)))))
            = (vstopRec hi cl atr ap lb n m (j + 1)).1 := by
          rw [hrec, hprev]
          by_cases hk : (vstopRec hi cl atr ap lb n m j).2 = BarKind.short
          · have hn1 : ¬ s.fLow < 1 := by have := h3'.mpr hk; omega
            simp [hn1, hk]
          · have hn1 : s.fLow < 1 := by
              by_contra hcon
              exact hk (h3'.mp (by omega))
            simp [hn1, hk]
        refine ⟨?_, ?_, ?_⟩
        · show s.stops ++ _ = _
          rw [hveq, List.range_succ, List.map_append, h1]
          simp
        · show (0:ℕ) < 0 ↔ _
          simp [hrec]
        · show 0 < s.fLow + 1 ↔ _
          simp [hrec]

lemma vstopGet_eq (hi cl : ℕ → ℚ) (atr : ℕ → RVal) (ap lb n : ℕ) (m : ℚ)
    (hap : 1 ≤ ap) {j : ℕ} (hj : j < n) :
    vstopGet hi cl atr ap lb n m j = (vstopRec hi cl atr ap lb n m j).1 := by
  unfold vstopGet vstopSeries
  rw [(vstop_fold_spec hi cl atr ap lb n m hap n).1]
  exact getD_map_range _ none hj

/-! ### Monotonicity facts for the VStop state machine -/

lemma rvLt_some_left {a : RVal} {b : ℚ} (h : rvLt a (some b) = true) : ∃ x, a = some x := by
  cases a with
  | none => simp [rvLt] at h
  | some x => exact ⟨x, rfl⟩

lemma rvLe_pyMax_left (a : ℚ) (x : RVal) : rvLe (some a) (pyMax (some a) x) = true := by
  cases x with
  | none => simp [pyMax, rvLt, rvLe]
  | some b =>
    by_cases h : a < b
    · simp [pyMax, rvLt, rvLe, h, le_of_lt h]
    · simp [pyMax, rvLt, rvLe, h]

lemma rvLe_pyMin_left (a : ℚ) (x : RVal) : rvLe (pyMin (some a) x) (some a) = true := by
  cases x with
  | none => simp [pyMin, rvLt, rvLe]
  | some b =>
    by_cases h : b < a
    · simp [pyMin, rvLt, rvLe, h, le_of_lt h]
    · simp [pyMin, rvLt, rvLe, h]

lemma vstopRec_long_mono (hi cl : ℕ → ℚ) (atr : ℕ → RVal) (ap lb n : ℕ) (m : ℚ)
    (hap : 1 ≤ ap) {i : ℕ} (hge : ap ≤ i)
    (hcPrev : rvLt (vstopRec hi cl atr ap lb n m (i - 1)).1 (some (hi (i - 1))) = true)
    (hcCur : rvLt (vstopRec hi cl atr ap lb n m i).1 (some (hi i)) = true) :
    rvLe (vstopRec hi cl atr ap lb n m i).1 (vstopRec hi cl atr ap lb n m (i + 1)).1 = true := by
  obtain ⟨j, rfl⟩ : ∃ j, i = j + 1 := ⟨i - 1, by omega⟩
  rw [Nat.add_sub_cancel] at hcPrev
  have hkind : (vstopRec hi cl atr ap lb n m (j + 1)).2 = BarKind.long := by
    rw [vstopRec_steady_long hi cl atr ap lb n m (by omega) hcPrev]
  rw [vstopRec_steady_long hi cl atr ap lb n m (show ¬ j + 1 + 1 < ap by omega) hcCur]
  show rvLe (vstopRec hi cl atr ap lb n m (j + 1)).1
      (if (vstopRec hi cl atr ap lb n m (j + 1)).2 = BarKind.long then _ else _) = true
  rw [if_pos hkind]
  obtain ⟨x, hx⟩ := rvLt_some_left hcCur
  rw [hx]
  exact rvLe_pyMax_left x _

lemma vstopRec_short_mono (hi cl : ℕ → ℚ) (atr : ℕ → RVal) (ap lb n : ℕ) (m : ℚ)
    (hap : 1 ≤ ap) {i : ℕ} (hge : ap ≤ i)
    (hcPrev : rvLt (vstopRec hi cl atr ap lb n m (i - 1)).1 (some (hi (i - 1))) = false)
    (hcCur : rvLt (vstopRec hi cl atr ap lb n m i).1 (some (hi i)) = false)
    (hne : (vstopRec hi cl atr ap lb n m i).1 ≠ none) :
    rvLe (vstopRec hi cl atr ap lb n m (i + 1)).1 (vstopRec hi cl atr ap lb n m i).1 = true := by
  obtain ⟨j, rfl⟩ : ∃ j, i = j + 1 := ⟨i - 1, by omega⟩
  rw [Nat.add_sub_cancel] at hcPrev
  have hkind : (vstopRec hi cl atr ap lb n m (j + 1)).2 = BarKind.short := by
    rw [vstopRec_steady_short hi cl atr ap lb n m (by omega) hcPrev]
  rw [vstopRec_steady_short hi cl atr ap lb n m (show ¬ j + 1 + 1 < ap by omega) hcCur]
  show rvLe ((if (vstopRec hi cl atr ap lb n m (j + 1)).2 = BarKind.short then _ else _ : RVal))
      (vstopRec hi cl atr ap lb n m (j + 1)).1 = true
  rw [if_pos hkind]
  obtain ⟨x, hx⟩ := Option.ne_none_iff_exists'.mp hne
  rw [hx]
  exact rvLe_pyMin_left x _

/-! ### Claim C1 -/

/-- C1 (amended).  For valid parameters (`atrPeriod`, `lookback` positive naturals,
`multiplier` positive rational) and consecutive steady-state bars `i`, `i+1` of the
series: while the long-run condition (previous bar's high above previous stop)
continues to hold, the stop series of `calculate_vstop` is non-decreasing; while
the short-run condition continues to hold it is non-increasing, provided the stop
at bar `i` is an actual number.  (The extra proviso is forced: with
`lookback > atrPeriod` the close window of line 47 can be empty, its max/min is
NaN, the stop becomes NaN, and `NaN <= NaN` is false — see the counterexample.) -/
theorem claimC1_amended (hi cl : ℕ → ℚ) (atr : ℕ → RVal) (ap lb n : ℕ) (m : ℚ)
    (hap : 0 < ap) (_hlb : 0 < lb) (_hm : 0 < m) (i : ℕ) (h1 : ap ≤ i) (h2 : i + 1 < n) :
    (longRunCond hi cl atr ap lb n m i → longRunCond hi cl atr ap lb n m (i + 1) →
      rvLe (vstopGet hi cl atr ap lb n m i) (vstopGet hi cl atr ap lb n m (i + 1)) = true)
    ∧ (shortRunCond hi cl atr ap lb n m i → shortRunCond hi cl atr ap lb n m (i + 1) →
      vstopGet hi cl atr ap lb n m i ≠ none →
      rvLe (vstopGet hi cl atr ap lb n m (i + 1)) (vstopGet hi cl atr ap lb n m i) = true) := by
  have hgm1 : i - 1 < n := by omega
  have hg0 : i < n := by omega
  have hg1 : i + 1 < n := h2
  constructor
  · intro hA hB
    unfold longRunCond at hA hB
    rw [Nat.add_sub_cancel] at hB
    rw [vstopGet_eq hi cl atr ap lb n m hap hgm1] at hA
    rw [vstopGet_eq hi cl atr ap lb n m hap hg0] at hB
    rw [vstopGet_eq hi cl atr ap lb n m hap hg0, vstopGet_eq hi cl atr ap lb n m hap hg1]
    exact vstopRec_long_mono hi cl atr ap lb n m hap h1 hA hB
  · intro hA hB hne
    unfold shortRunCond at hA hB
    rw [Nat.add_sub_cancel] at hB
    rw [vstopGet_eq hi cl atr ap lb n m hap hgm1] at hA
    rw [vstopGet_eq hi cl atr ap lb n m hap hg0] at hB
    rw [vstopGet_eq hi cl atr ap lb n m hap hg0] at hne
    rw [vstopGet_eq hi cl atr ap lb n m hap hg0, vstopGet_eq hi cl atr ap lb n m hap hg1]
    exact vstopRec_short_mono hi cl atr ap lb n m hap h1 hA hB hne

/-- C1 counterexample to the claim as stated.  Valid parameters
`atrPeriod = 1, lookback = 2, multiplier = 1` on a 4-bar series (constant close 10,
constant high 0, ATR 1): the short-run condition holds at bars 2 and 3, yet the
stop series is not non-increasing there — bars 1-3 are NaN because the
`iloc[1-2 : 2]` window is empty (Python wraps the negative start to index 3),
and `NaN <= NaN` is false. -/
theorem claimC1_counterexample :
    (0:ℕ) < 1 ∧ (0:ℕ) < 2 ∧ (0:ℚ) < 1 ∧ 1 ≤ 2 ∧ 2 + 1 < 4 ∧
    shortRunCond (fun _ => (0:ℚ)) (fun _ => (10:ℚ)) (fun _ => (some 1 : RVal)) 1 2 4 1 2 ∧
    shortRunCond (fun _ => (0:ℚ)) (fun _ => (10:ℚ)) (fun _ => (some 1 : RVal)) 1 2 4 1 3 ∧
    rvLe (vstopGet (fun _ => (0:ℚ)) (fun _ => (10:ℚ)) (fun _ => (some 1 : RVal)) 1 2 4 1 3)
        (vstopGet (fun _ => (0:ℚ)) (fun _ => (10:ℚ)) (fun _ => (some 1 : RVal)) 1 2 4 1 2)
      = false ∧
    vstopGet (fun _ => (0:ℚ)) (fun _ => (10:ℚ)) (fun _ => (some 1 : RVal)) 1 2 4 1 2 = none := by
  refine ⟨by norm_num, by norm_num, by norm_num, by norm_num, by norm_num, ?_, ?_, ?_, ?_⟩
  · show rvLt _ _ = false
    with_unfolding_all rfl
  · show rvLt _ _ = false
    with_unfolding_all rfl
  · with_unfolding_all rfl
  · with_unfolding_all rfl

/-- C1 witness: the amended theorem applied at a concrete valid input. -/
theorem claimC1_witness :
    ((0:ℕ) < 1 ∧ (0:ℕ) < 1 ∧ (0:ℚ) < 1 ∧ 1 ≤ 1 ∧ 1 + 1 < 3) ∧
    ((longRunCond (fun _ => (1:ℚ)) (fun _ => (1:ℚ)) (fun _ => (some 1 : RVal)) 1 1 3 1 1 →
        longRunCond (fun _ => (1:ℚ)) (fun _ => (1:ℚ)) (fun _ => (some 1 : RVal)) 1 1 3 1 2 →
        rvLe (vstopGet (fun _ => (1:ℚ)) (fun _ => (1:ℚ)) (fun _ => (some 1 : RVal)) 1 1 3 1 1)
          (vstopGet (fun _ => (1:ℚ)) (fun _ => (1:ℚ)) (fun _ => (some 1 : RVal)) 1 1 3 1 2) = true)
      ∧ (shortRunCond (fun _ => (1:ℚ)) (fun _ => (1:ℚ)) (fun _ => (some 1 : RVal)) 1 1 3 1 1 →
        shortRunCond (fun _ => (1:ℚ)) (fun _ => (1:ℚ)) (fun _ => (some 1 : RVal)) 1 1 3 1 2 →
        vstopGet (fun _ => (1:ℚ)) (fun _ => (1:ℚ)) (fun _ => (some 1 : RVal)) 1 1 3 1 1 ≠ none →
        rvLe (vstopGet (fun _ => (1:ℚ)) (fun _ => (1:ℚ)) (fun _ => (some 1 : RVal)) 1 1 3 1 2)
          (vstopGet (fun _ => (1:ℚ)) (fun _ => (1:ℚ)) (fun _ => (some 1 : RVal)) 1 1 3 1 1) = true)) :=
  ⟨⟨by norm_num, by norm_num, by norm_num, by norm_num, by norm_num⟩,
   claimC1_amended (fun _ => (1:ℚ)) (fun _ => (1:ℚ)) (fun _ => (some 1 : RVal)) 1 1 3 1
     (by norm_num) (by norm_num) (by norm_num) 1 (by norm_num) (by norm_num)⟩

/-! ### Claim C2 -/

/-- C2.  The recommendation of `get_stock_analysis` is "Buy" iff all eight buy
conditions hold; otherwise "Sell" iff the four sell conditions hold; otherwise
"Hold" — rules evaluated in this order, first match wins. -/
theorem claimC2_rules (close ema50 sma50 ema200 sma200 rsi adx vstop psar : ℚ) :
    (get_recommendation close ema50 sma50 ema200 sma200 rsi adx vstop psar = "Buy"
      ↔ (close > ema50 ∧ close > sma50 ∧ close > ema200 ∧ close > sma200 ∧
         rsi > 55 ∧ adx > 25 ∧ close > vstop ∧ close > psar))
    ∧ (get_recommendation close ema50 sma50 ema200 sma200 rsi adx vstop psar = "Sell"
      ↔ (¬ (close > ema50 ∧ close > sma50 ∧ close > ema200 ∧ close > sma200 ∧
            rsi > 55 ∧ adx > 25 ∧ close > vstop ∧ close > psar)
         ∧ (close < ema50 ∧ close < vstop ∧ close < psar ∧ rsi < 45)))
    ∧ (get_recommendation close ema50 sma50 ema200 sma200 rsi adx vstop psar = "Hold"
      ↔ (¬ (close > ema50 ∧ close > sma50 ∧ close > ema200 ∧ close > sma200 ∧
            rsi > 55 ∧ adx > 25 ∧ close > vstop ∧ close > psar)
         ∧ ¬ (close < ema50 ∧ close < vstop ∧ close < psar ∧ rsi < 45))) := by
  have hBS : ("Buy" : String) ≠ "Sell" := by decide
  have hBH : ("Buy" : String) ≠ "Hold" := by decide
  have hSB : ("Sell" : String) ≠ "Buy" := by decide
  have hSH : ("Sell" : String) ≠ "Hold" := by decide
  have hHB : ("Hold" : String) ≠ "Buy" := by decide
  have hHS : ("Hold" : String) ≠ "Sell" := by decide
  unfold get_recommendation is_buy_signal is_sell_signal
  by_cases hb : (close > ema50 ∧ close > sma50 ∧ close > ema200 ∧ close > sma200 ∧
      rsi > 55 ∧ adx > 25 ∧ close > vstop ∧ close > psar)
  · simp [hb, hBS, hBH]
  · by_cases hs : (close < ema50 ∧ close < vstop ∧ close < psar ∧ rsi < 45)
    · simp [hb, hs, hSB, hSH]
    · simp [hb, hs, hHB, hHS]

/-! ### Claim C8 -/

/-- C8.  During warm-up (`i < atrPeriod`) the stop value of `calculate_vstop` is
`close[i] + multiplier * atr[i]`, regardless of trend direction (the theorem holds
for every High column and every ATR series). -/
theorem claimC8_warmup (hi cl : ℕ → ℚ) (atr : ℕ → RVal) (ap lb n : ℕ) (m : ℚ)
    (hap : 0 < ap) (i : ℕ) (hw : i < ap) (hn : i < n) :
    vstopGet hi cl atr ap lb n m i = rvAdd (some (cl i)) (rvMul (some m) (atr i)) := by
  rw [vstopGet_eq hi cl atr ap lb n m hap hn, vstopRec_warm hi cl atr ap lb n m hw]

/-- C8 witness: the warm-up formula at a concrete input. -/
theorem claimC8_witness :
    ((0:ℕ) < 2 ∧ 1 < 2 ∧ 1 < 3) ∧
    vstopGet (fun _ => (7:ℚ)) (fun _ => (5:ℚ)) (fun _ => (some 3 : RVal)) 2 1 3 2 1
      = rvAdd (some ((fun _ => (5:ℚ)) 1)) (rvMul (some 2) ((fun _ => (some 3 : RVal)) 1)) :=
  ⟨⟨by norm_num, by norm_num, by norm_num⟩,
   claimC8_warmup (fun _ => (7:ℚ)) (fun _ => (5:ℚ)) (fun _ => (some 3 : RVal)) 2 1 3 2
     (by norm_num) 1 (by norm_num) (by norm_num)⟩

/-! ### Claim C9 -/

/-- C9.  Any non-positive parameter makes `calculate_vstop` fail with the
validation `ValueError` of source lines 30-31 (the spec's `ValidationError`),
before any stop value is produced. -/
theorem claimC9_validation (atrFn : List ℚ → List ℚ → List ℚ → List RVal)
    (df : DataFrame) (ap lb : ℤ) (m : ℚ) (h : ap ≤ 0 ∨ lb ≤ 0 ∨ m ≤ 0) :
    calculate_vstop atrFn df ap lb m = .error PyErr.valueError := by
  unfold calculate_vstop
  rw [if_pos h]

/-- C9 witness: `multiplier = 0` produces the validation error. -/
theorem claimC9_witness :
    ((14:ℤ) ≤ 0 ∨ (1:ℤ) ≤ 0 ∨ (0:ℚ) ≤ 0) ∧
    calculate_vstop (fun _ _ _ => []) ⟨[1], [1], [1], []⟩ 14 1 0
      = Except.error PyErr.valueError :=
  ⟨Or.inr (Or.inr le_rfl),
   claimC9_validation (fun _ _ _ => []) ⟨[1], [1], [1], []⟩ 14 1 0 (Or.inr (Or.inr le_rfl))⟩

/-! ### Claim C3 -/

/-- C3 (amended).  `calculate_vstop` performs no minimum-length validation and the
repository defines no `InsufficientDataError` anywhere: with the (external) ATR
series supplied, a non-empty series with `N <= atrPeriod` and valid parameters is
processed entirely by the warm-up branch and the call succeeds, returning the
last warm-up value `close[N-1] + multiplier * atr[N-1]`.  (In the deployed code
pandas_ta additionally returns `None` for the ATR when `N < atrPeriod`, so the
loop crashes with an unstructured `AttributeError` — still not an
`InsufficientDataError`.) -/
theorem claimC3_amended (atrFn : List ℚ → List ℚ → List ℚ → List RVal) (df : DataFrame)
    (ap lb : ℤ) (m : ℚ) (hap : 0 < ap) (hlb : 0 < lb) (hm : 0 < m)
    (hn0 : df.close.length ≠ 0) (hshort : df.close.length ≤ ap.toNat) :
    calculate_vstop atrFn df ap lb m
      = .ok ({ df with extra := df.extra ++
            [("ATRr_" ++ toString ap.toNat, atrFn df.high df.low df.close),
             ("VStop", vstopSeries (colFun df.high) (colFun df.close)
                (colFunR (atrFn df.high df.low df.close)) ap.toNat lb.toNat
                df.close.length m)] },
          rvAdd (some (colFun df.close (df.close.length - 1)))
            (rvMul (some m) (colFunR (atrFn df.high df.low df.close)
              (df.close.length - 1)))) := by
  have hcond : ¬ (ap ≤ 0 ∨ lb ≤ 0 ∨ m ≤ 0) := by
    push_neg
    exact ⟨by omega, by omega, hm⟩
  have hg : (vstopSeries (colFun df.high) (colFun df.close)
      (colFunR (atrFn df.high df.low df.close)) ap.toNat lb.toNat df.close.length m).getD
        (df.close.length - 1) none
      = rvAdd (some (colFun df.close (df.close.length - 1)))
          (rvMul (some m) (colFunR (atrFn df.high df.low df.close)
            (df.close.length - 1))) := by
    have h1 : 1 ≤ ap.toNat := by omega
    have hlt : df.close.length - 1 < df.close.length := by omega
    have hget := vstopGet_eq (colFun df.high) (colFun df.close)
      (colFunR (atrFn df.high df.low df.close)) ap.toNat lb.toNat df.close.length m h1 hlt
    unfold vstopGet at hget
    rw [hget, vstopRec_warm (colFun df.high) (colFun df.close)
      (colFunR (atrFn df.high df.low df.close)) ap.toNat lb.toNat df.close.length m
      (show df.close.length - 1 < ap.toNat by omega)]
  simp only [calculate_vstop, hcond, if_false, hn0, ite_false, hg]

/-- C3 counterexample to the claim as stated: a 10-bar series with
`atrPeriod = 14` makes `calculate_vstop` return a value, not fail. -/
theorem claimC3_counterexample :
    isOkE (calculate_vstop (fun _ _ cl => cl.map (fun _ => some 1))
      ⟨List.replicate 10 2, List.replicate 10 1, List.replicate 10 1, []⟩ 14 1 2) = true := by
  with_unfolding_all rfl

/-- C3 witness: the amended theorem applied at the same 10-bar input. -/
theorem claimC3_witness :
    ((0:ℤ) < 14 ∧ (0:ℤ) < 1 ∧ (0:ℚ) < 2 ∧
      (List.replicate 10 (1:ℚ)).length ≠ 0 ∧ (List.replicate 10 (1:ℚ)).length ≤ (14:ℤ).toNat) ∧
    calculate_vstop (fun _ _ cl => cl.map (fun _ => some 1))
        ⟨List.replicate 10 2, List.replicate 10 1, List.replicate 10 1, []⟩ 14 1 2
      = .ok ({ high := List.replicate 10 2, low := List.replicate 10 1,
               close := List.replicate 10 1,
               extra := [] ++
                [("ATRr_" ++ toString (14:ℤ).toNat,
                  (fun _ _ cl => cl.map (fun _ => (some 1 : RVal)))
                    (List.replicate 10 2) (List.replicate 10 1) (List.replicate 10 1)),
                 ("VStop", vstopSeries (colFun (List.replicate 10 2))
                    (colFun (List.replicate 10 1))
                    (colFunR ((fun _ _ cl => cl.map (fun _ => (some 1 : RVal)))
                      (List.replicate 10 2) (List.replicate 10 1) (List.replicate 10 1)))
                    (14:ℤ).toNat (1:ℤ).toNat (List.replicate 10 (1:ℚ)).length 2)] },
          rvAdd (some (colFun (List.replicate 10 1) ((List.replicate 10 (1:ℚ)).length - 1)))
            (rvMul (some 2) (colFunR ((fun _ _ cl => cl.map (fun _ => (some 1 : RVal)))
                (List.replicate 10 2) (List.replicate 10 1) (List.replicate 10 1))
              ((List.replicate 10 (1:ℚ)).length - 1)))) :=
  ⟨⟨by norm_num, by norm_num, by norm_num, by simp, by simp⟩,
   claimC3_amended (fun _ _ cl => cl.map (fun _ => some 1))
     ⟨List.replicate 10 2, List.replicate 10 1, List.replicate 10 1, []⟩ 14 1 2
     (by norm_num) (by norm_num) (by norm_num) (by simp) (by simp)⟩

/-! ### Claim C10 -/

/-- C10.  `calculate_vstop` mutates its input frame: every successful call returns
the frame with the ATR column and the 'VStop' column appended, with the original
High/Low/Close columns unchanged, and the returned frame differs from the input. -/
theorem claimC10_mutation (atrFn : List ℚ → List ℚ → List ℚ → List RVal)
    (df : DataFrame) (ap lb : ℤ) (m : ℚ) (df2 : DataFrame) (v : RVal)
    (h : calculate_vstop atrFn df ap lb m = .ok (df2, v)) :
    df2.high = df.high ∧ df2.low = df.low ∧ df2.close = df.close ∧
    df2.extra = df.extra ++
      [("ATRr_" ++ toString ap.toNat, atrFn df.high df.low df.close),
       ("VStop", vstopSeries (colFun df.high) (colFun df.close)
          (colFunR (atrFn df.high df.low df.close)) ap.toNat lb.toNat
          df.close.length m)] ∧
    df2 ≠ df := by
  unfold calculate_vstop at h
  by_cases hv : (ap ≤ 0 ∨ lb ≤ 0 ∨ m ≤ 0)
  · rw [if_pos hv] at h
    cases h
  · rw [if_neg hv] at h
    by_cases hn : df.close.length = 0
    · simp only [hn, ite_true] at h
      cases h
    · simp only [hn, ite_false] at h
      simp only [Except.ok.injEq, Prod.mk.injEq] at h
      obtain ⟨hdf, -⟩ := h
      refine ⟨by rw [← hdf], by rw [← hdf], by rw [← hdf], by rw [← hdf], ?_⟩
      intro heq
      rw [← hdf] at heq
      have hext := congrArg (fun d => d.extra.length) heq
      simp at hext

/-- C10 witness: a concrete successful call gains the two columns and the frame
differs from the input. -/
theorem claimC10_witness :
    (calculate_vstop (fun _ _ _ => [some 1]) ⟨[1], [1], [1], []⟩ 1 1 1
        = Except.ok (⟨[1], [1], [1], [("ATRr_1", [some 1]), ("VStop", [some 2])]⟩, some 2)) ∧
    ((⟨[1], [1], [1], [("ATRr_1", [some 1]), ("VStop", [some 2])]⟩ : DataFrame)
        ≠ (⟨[1], [1], [1], []⟩ : DataFrame)) := by
  have hok : calculate_vstop (fun _ _ _ => [some 1]) ⟨[1], [1], [1], []⟩ 1 1 1
      = Except.ok (⟨[1], [1], [1], [("ATRr_1", [some 1]), ("VStop", [some 2])]⟩, some 2) := by
    with_unfolding_all rfl
  exact ⟨hok, (claimC10_mutation (fun _ _ _ => [some 1]) ⟨[1], [1], [1], []⟩ 1 1 1
    ⟨[1], [1], [1], [("ATRr_1", [some 1]), ("VStop", [some 2])]⟩ (some 2) hok).2.2.2.2⟩

/-! ### Claim C4 -/

/-- C4 (amended).  Because both series are normalised by their own first close,
scaling every close of the benchmark series by a non-zero constant `k` leaves the
reported relative-strength ratio unchanged (the claimed `1/k` scaling does not
occur — the factor cancels). -/
theorem claimC4_amended (k : ℚ) (stock index : List ℚ) (hk : k ≠ 0)
    (_hs : stock ≠ []) (_hb : index ≠ []) (_hs0 : stock.getD 0 0 ≠ 0)
    (_hb0 : index.getD 0 0 ≠ 0) :
    calculate_relative_strength stock (index.map (fun c => k * c))
      = calculate_relative_strength stock index := by
  have hrs : rsSeries stock (index.map (fun c => k * c)) = rsSeries stock index := by
    unfold rsSeries
    cases index with
    | nil => simp
    | cons i0 rest =>
      simp only [List.map_cons, List.getD, List.map_map]
      have : ((fun c => c / (k * i0)) ∘ fun c => k * c) = fun c => c / i0 := by
        funext c
        simp only [Function.comp]
        exact mul_div_mul_left c i0 hk
      simp [this]
      rw [mul_div_mul_left i0 i0 hk]
  unfold calculate_relative_strength
  simp only [List.length_map]
  by_cases h0 : stock.length = 0 ∨ index.length = 0
  · rw [if_pos h0, if_pos h0]
  · rw [if_neg h0, if_neg h0, hrs]

/-- C4 counterexample to the claim as stated: doubling every benchmark close
leaves the reported ratio at 2; the claim predicts `(1/2) * 2 = 1`. -/
theorem claimC4_counterexample :
    calculate_relative_strength [1, 2] [1, 1] = Except.ok 2 ∧
    calculate_relative_strength [1, 2] (List.map (fun c => (2:ℚ) * c) [1, 1]) = Except.ok 2 ∧
    (Except.ok (2:ℚ) : Except PyErr ℚ) ≠ Except.ok ((1 / (2:ℚ)) * 2) := by
  refine ⟨by with_unfolding_all rfl, by with_unfolding_all rfl, ?_⟩
  intro h
  simp only [Except.ok.injEq] at h
  norm_num at h

/-- C4 witness: the amended invariance applied at a concrete input with `k = 3`. -/
theorem claimC4_witness :
    ((3:ℚ) ≠ 0 ∧ ([1, 2] : List ℚ) ≠ [] ∧ ([1, 1] : List ℚ) ≠ [] ∧
      ([1, 2] : List ℚ).getD 0 0 ≠ 0 ∧ ([1, 1] : List ℚ).getD 0 0 ≠ 0) ∧
    calculate_relative_strength [1, 2] (List.map (fun c => (3:ℚ) * c) [1, 1])
      = calculate_relative_strength [1, 2] [1, 1] :=
  ⟨⟨by norm_num, by simp, by simp, by norm_num, by norm_num⟩,
   claimC4_amended 3 [1, 2] [1, 1] (by norm_num) (by simp) (by simp)
     (by norm_num) (by norm_num)⟩

/-! ### Claim C7 -/

/-- C7 (amended).  `calculate_relative_strength` performs no validation of its
own: an empty series makes the `.iloc[0]` access escape with an unstructured
`IndexError` (not a `ValidationError` — no `ValueError` is raised anywhere in
the function); a zero first close is not detected at all (the float division
silently produces inf/NaN values, modelled here by the total division of `ℚ`).
For non-empty series the last ratio value is returned, and with non-zero first
closes the ratio series starts at 1. -/
theorem claimC7_amended (stock index : List ℚ) (hs : stock ≠ []) (hb : index ≠ [])
    (hs0 : stock.getD 0 0 ≠ 0) (hb0 : index.getD 0 0 ≠ 0) :
    calculate_relative_strength stock index
        = .ok ((rsSeries stock index).getD ((rsSeries stock index).length - 1) 0)
    ∧ (rsSeries stock index).getD 0 0 = 1
    ∧ calculate_relative_strength [] index = .error PyErr.indexError
    ∧ calculate_relative_strength stock [] = .error PyErr.indexError := by
  have h0 : ¬ (stock.length = 0 ∨ index.length = 0) := by
    rintro (h | h)
    · exact hs (List.length_eq_zero.mp h)
    · exact hb (List.length_eq_zero.mp h)
  refine ⟨?_, ?_, ?_, ?_⟩
  · unfold calculate_relative_strength
    rw [if_neg h0]
  · cases stock with
    | nil => exact absurd rfl hs
    | cons s0 sr =>
      cases index with
      | nil => exact absurd rfl hb
      | cons i0 ir =>
        simp only [List.getD] at hs0 hb0
        simp at hs0 hb0
        unfold rsSeries
        simp [div_self hs0, div_self hb0]
  · unfold calculate_relative_strength
    simp
  · unfold calculate_relative_strength
    simp

/-- C7 counterexample to the claim as stated: a zero first close returns a value
instead of failing with a `ValidationError`, and an empty series fails with an
`IndexError` instead. -/
theorem claimC7_counterexample :
    isOkE (calculate_relative_strength [0, 1] [1, 1]) = true ∧
    calculate_relative_strength [] [1] = Except.error PyErr.indexError :=
  ⟨by with_unfolding_all rfl, by with_unfolding_all rfl⟩

/-- C7 witness: the amended theorem applied at a concrete input. -/
theorem claimC7_witness :
    (([2, 4] : List ℚ) ≠ [] ∧ ([1, 2] : List ℚ) ≠ [] ∧
      ([2, 4] : List ℚ).getD 0 0 ≠ 0 ∧ ([1, 2] : List ℚ).getD 0 0 ≠ 0) ∧
    (calculate_relative_strength [2, 4] [1, 2]
        = .ok ((rsSeries [2, 4] [1, 2]).getD ((rsSeries [2, 4] [1, 2]).length - 1) 0)
      ∧ (rsSeries [2, 4] [1, 2]).getD 0 0 = 1
      ∧ calculate_relative_strength [] [1, 2] = .error PyErr.indexError
      ∧ calculate_relative_strength [2, 4] [] = .error PyErr.indexError) :=
  ⟨⟨by simp, by simp, by norm_num, by norm_num⟩,
   claimC7_amended [2, 4] [1, 2] (by simp) (by simp) (by norm_num) (by norm_num)⟩

/-! ### Claim C5 -/

lemma foldl_max_le_iff (r : List ℚ) (x c : ℚ) :
    r.foldl max x ≤ c ↔ (x ≤ c ∧ ∀ y ∈ r, y ≤ c) := by
  induction r generalizing x with
  | nil => simp
  | cons b r ih =>
    simp only [List.foldl_cons, ih, max_le_iff, List.mem_cons]
    constructor
    · rintro ⟨⟨h1, h2⟩, h3⟩
      refine ⟨h1, fun y hy => ?_⟩
      rcases hy with rfl | hy
      exacts [h2, h3 y hy]
    · rintro ⟨h1, h2⟩
      exact ⟨⟨h1, h2 b (Or.inl rfl)⟩, fun y hy => h2 y (Or.inr hy)⟩

/-- C5.  For a non-empty daily series, `get_chart_pattern` returns
"New 52-Week High Breakout" iff the latest close is at or above every High of the
trailing 252-bar window, and "No clear pattern" iff some High of that window
strictly exceeds the latest close; when fewer than 252 bars exist, the window is
the whole High column. -/
theorem claimC5_pattern (df : DataFrame) (hc : df.close ≠ []) (hh : df.high ≠ []) :
    (get_chart_pattern df = .ok "New 52-Week High Breakout"
      ↔ ∀ x ∈ df.high.drop (df.high.length - 252),
          x ≤ df.close.getD (df.close.length - 1) 0)
    ∧ (get_chart_pattern df = .ok "No clear pattern"
      ↔ ∃ x ∈ df.high.drop (df.high.length - 252),
          df.close.getD (df.close.length - 1) 0 < x)
    ∧ (df.high.length ≤ 252 → df.high.drop (df.high.length - 252) = df.high) := by
  have hlen : ¬ df.close.length = 0 := fun h => hc (List.length_eq_zero.mp h)
  have hpos : 0 < df.high.length := List.length_pos.mpr hh
  obtain ⟨w, r, hwr⟩ : ∃ w r, df.high.drop (df.high.length - 252) = w :: r := by
    cases hW : df.high.drop (df.high.length - 252) with
    | nil =>
      have := congrArg List.length hW
      simp [List.length_drop] at this
      omega
    | cons w r => exact ⟨w, r, rfl⟩
  set c := df.close.getD (df.close.length - 1) 0 with hcdef
  have hmax : seriesMax (df.high.drop (df.high.length - 252)) = some (r.foldl max w) := by
    rw [hwr]; rfl
  have hGC : get_chart_pattern df
      = if rvLe (some (r.foldl max w)) (some c) then
          (Except.ok "New 52-Week High Breakout" : Except PyErr String)
        else Except.ok "No clear pattern" := by
    simp only [get_chart_pattern, hlen, ite_false, hmax, hcdef]
  have hstr : ("No clear pattern" : String) ≠ "New 52-Week High Breakout" := by decide
  have hstr2 : ("New 52-Week High Breakout" : String) ≠ "No clear pattern" := by decide
  have hmem : ∀ z : ℚ, (r.foldl max w ≤ z
      ↔ ∀ x ∈ df.high.drop (df.high.length - 252), x ≤ z) := by
    intro z
    rw [hwr, foldl_max_le_iff]
    constructor
    · rintro ⟨h1, h2⟩ x hx
      rcases List.mem_cons.mp hx with rfl | hx
      exacts [h1, h2 x hx]
    · intro h
      exact ⟨h w (by simp), fun y hy => h y (by simp [hy])⟩
  have hiff1 : (if rvLe (some (r.foldl max w)) (some c) then
        (Except.ok "New 52-Week High Breakout" : Except PyErr String)
      else Except.ok "No clear pattern") = .ok "New 52-Week High Breakout"
      ↔ r.foldl max w ≤ c := by
    by_cases hle : r.foldl max w ≤ c
    · simp [rvLe, hle]
    · simp [rvLe, hle, hstr]
  have hiff2 : (if rvLe (some (r.foldl max w)) (some c) then
        (Except.ok "New 52-Week High Breakout" : Except PyErr String)
      else Except.ok "No clear pattern") = .ok "No clear pattern"
      ↔ ¬ r.foldl max w ≤ c := by
    by_cases hle : r.foldl max w ≤ c
    · simp [rvLe, hle, hstr2]
    · simp [rvLe, hle]
  refine ⟨?_, ?_, ?_⟩
  · rw [hGC, hiff1]
    exact hmem c
  · rw [hGC, hiff2, hmem c]
    push_neg
    simp
  · intro h252
    have : df.high.length - 252 = 0 := by omega
    rw [this, List.drop_zero]

/-- C5 witness: the characterisation applied at a concrete breakout series. -/
theorem claimC5_witness :
    (([1, 3] : List ℚ) ≠ [] ∧ ([2, 3] : List ℚ) ≠ []) ∧
    ((get_chart_pattern ⟨[2, 3], [1], [1, 3], []⟩ = .ok "New 52-Week High Breakout"
        ↔ ∀ x ∈ ([2, 3] : List ℚ).drop (([2, 3] : List ℚ).length - 252),
            x ≤ ([1, 3] : List ℚ).getD (([1, 3] : List ℚ).length - 1) 0)
      ∧ (get_chart_pattern ⟨[2, 3], [1], [1, 3], []⟩ = .ok "No clear pattern"
        ↔ ∃ x ∈ ([2, 3] : List ℚ).drop (([2, 3] : List ℚ).length - 252),
            ([1, 3] : List ℚ).getD (([1, 3] : List ℚ).length - 1) 0 < x)
      ∧ (([2, 3] : List ℚ).length ≤ 252 →
          ([2, 3] : List ℚ).drop (([2, 3] : List ℚ).length - 252) = [2, 3])) :=
  ⟨⟨by simp, by simp⟩, claimC5_pattern ⟨[2, 3], [1], [1, 3], []⟩ (by simp) (by simp)⟩

/-! ### Claim C6 -/

/-- C6 (amended).  At a steady-state bar `i`, whenever `i >= lookback` the window
used by `calculate_vstop` is exactly the trailing `lookback + 1` closes
`close[i-lookback .. i]`; when `i < lookback` the slice start `i - lookback` is
negative and Python interprets it relative to the END of the series, so the
window is `close[max(0, N+i-lookback) .. i]` — not the start-clipped prefix
`close[0 .. i]` the claim describes (and it is even empty when
`N + i - lookback > i`). -/
theorem claimC6_amended (cl : ℕ → ℚ) (ap lb n : ℕ) (i : ℕ)
    (_hap : 0 < ap) (_hlb : 0 < lb) (_hge : ap ≤ i) (_hin : i < n) :
    (lb ≤ i → vwindow cl lb n i = (List.range' (i - lb) (lb + 1)).map cl)
    ∧ (i < lb → vwindow cl lb n i
        = (List.range' (n + i - lb) (i + 1 - (n + i - lb))).map cl) := by
  constructor
  · intro h
    unfold vwindow pySliceStart
    rw [if_pos h]
    have harith : i + 1 - (i - lb) = lb + 1 := by omega
    rw [harith]
  · intro h
    unfold vwindow pySliceStart
    rw [if_neg (by omega : ¬ lb ≤ i)]

/-- C6 counterexample to the start-clipping clause: with `lookback = 4`,
`atrPeriod = 1`, a 3-bar series `[10, 1, 1]` and steady-state bar `i = 2`, the
slice `iloc[2-4 : 3]` wraps to start index `3 + 2 - 4 = 1`, giving window
`[1, 1]` with max 1, whereas clipping at the series start would give
`[10, 1, 1]` with max 10. -/
theorem claimC6_counterexample :
    ((0:ℕ) < 1 ∧ (0:ℕ) < 4 ∧ 1 ≤ 2 ∧ 2 < 3) ∧
    vwindow (fun j => ([10, 1, 1] : List ℚ).getD j 0) 4 3 2 = [1, 1] ∧
    seriesMax (vwindow (fun j => ([10, 1, 1] : List ℚ).getD j 0) 4 3 2) = some 1 ∧
    (List.range' (2 - 4) (2 + 1 - (2 - 4))).map (fun j => ([10, 1, 1] : List ℚ).getD j 0)
        = [10, 1, 1] ∧
    seriesMax ((List.range' (2 - 4) (2 + 1 - (2 - 4))).map
        (fun j => ([10, 1, 1] : List ℚ).getD j 0)) = some 10 ∧
    vwindow (fun j => ([10, 1, 1] : List ℚ).getD j 0) 4 3 2
      ≠ (List.range' (2 - 4) (2 + 1 - (2 - 4))).map (fun j => ([10, 1, 1] : List ℚ).getD j 0) := by
  refine ⟨⟨by norm_num, by norm_num, by norm_num, by norm_num⟩, ?_, ?_, ?_, ?_, ?_⟩
  · with_unfolding_all rfl
  · with_unfolding_all rfl
  · with_unfolding_all rfl
  · with_unfolding_all rfl
  · intro h
    have e1 : (vwindow (fun j => ([10, 1, 1] : List ℚ).getD j 0) 4 3 2).length = 2 := by
      with_unfolding_all rfl
    have e2 : ((List.range' (2 - 4) (2 + 1 - (2 - 4))).map
        (fun j => ([10, 1, 1] : List ℚ).getD j 0)).length = 3 := by
      with_unfolding_all rfl
    have := congrArg List.length h
    rw [e1, e2] at this
    exact absurd this (by norm_num)

/-- C6 witness: the amended window characterisation at a concrete input. -/
theorem claimC6_witness :
    ((0:ℕ) < 1 ∧ (0:ℕ) < 1 ∧ 1 ≤ 2 ∧ 2 < 4) ∧
    ((1 ≤ 2 → vwindow (fun _ => (5:ℚ)) 1 4 2 = (List.range' (2 - 1) (1 + 1)).map (fun _ => (5:ℚ)))
      ∧ (2 < 1 → vwindow (fun _ => (5:ℚ)) 1 4 2
          = (List.range' (4 + 2 - 1) (2 + 1 - (4 + 2 - 1))).map (fun _ => (5:ℚ)))) :=
  ⟨⟨by norm_num, by norm_num, by norm_num, by norm_num⟩,
   claimC6_amended (fun _ => (5:ℚ)) 1 1 4 2 (by norm_num) (by norm_num)
     (by norm_num) (by norm_num)⟩
